import Mathlib

/-!
Shallow embedding of the session server (src/server.js) of
playwright-mcp-stealth: session lifecycle (createSession / destroySession),
the DevTools endpoint prober (waitForDevtools), active-tab resolution
(listPages / findActivePageWs), the screencast bridge (stopStream /
attachAndStream and the watcher poll), the per-frame handler, and the
process-wide signal sweep.  Network and process effects are modelled as
explicit event traces; the environment (fetch outcomes, clock, free port,
page focus probes) is passed in as data.
-/

deriving instance DecidableEq for Except

namespace ServerJs

/-- The JSON body answered by a reachable DevTools endpoint on
GET /json/version (only the field the code reads). -/
structure VersionJson where
  webSocketDebuggerUrl : String
deriving DecidableEq

/-- Outcome of one fetch of http://127.0.0.1:port/json/version inside
waitForDevtools: an ok response with a JSON body, a non-ok response
(r.ok false), or a thrown fetch error (connection refused etc., swallowed
by the empty catch). -/
inductive FetchResult where
  | ok (body : VersionJson)
  | notOk
  | connExn
deriving DecidableEq

/-- Observable steps of waitForDevtools: one fetch per loop iteration, and
the setTimeout sleep taken after every failed iteration. -/
inductive ProbeEvent where
  | fetchAttempt (i : Nat)
  | sleep (ms : Nat)
deriving DecidableEq

/-- The single error waitForDevtools can throw:
new Error of the message about DevTools being unreachable on the port. -/
inductive DevtoolsError where
  | unreachable (port : Nat)
deriving DecidableEq

/-- The loop body of waitForDevtools: index i, remaining attempt budget n.
On an ok fetch it returns the parsed body at once; otherwise it sleeps
sleepMs and retries.  The probe argument gives the outcome of the fetch at
each loop index (the environment). -/
def waitForDevtoolsGo (probe : Nat → FetchResult) (port sleepMs : Nat) :
    Nat → Nat → List ProbeEvent × Except DevtoolsError VersionJson
  | _, 0 => ([], Except.error (DevtoolsError.unreachable port))
  | i, Nat.succ rest =>
    match probe i with
    | FetchResult.ok body => ([ProbeEvent.fetchAttempt i], Except.ok body)
    | _ =>
      let r := waitForDevtoolsGo probe port sleepMs (i + 1) rest
      (ProbeEvent.fetchAttempt i :: ProbeEvent.sleep sleepMs :: r.1, r.2)

/-- waitForDevtools(port, attempts, sleepMs) from src/server.js (the source
defaults are attempts 40 and sleepMs 100; the launch path passes 60 and
150 explicitly). -/
def waitForDevtools (probe : Nat → FetchResult) (port attempts sleepMs : Nat) :
    List ProbeEvent × Except DevtoolsError VersionJson :=
  waitForDevtoolsGo probe port sleepMs 0 attempts

/-- Whether a fetch outcome is an ok response. -/
def isOkFetch : FetchResult → Bool
  | FetchResult.ok _ => true
  | _ => false

/-- Number of fetches issued in a probe trace. -/
def countFetches (evs : List ProbeEvent) : Nat :=
  evs.countP (fun e => match e with | ProbeEvent.fetchAttempt _ => true | _ => false)

/-- Every sleep in a probe trace has the given duration. -/
def allSleeps (evs : List ProbeEvent) (ms : Nat) : Bool :=
  evs.all (fun e => match e with | ProbeEvent.sleep m => m == ms | _ => true)

/-- A registry entry as built by createSession.  The browser process handle
is not data here; closing it is recorded as an event.  timerDuration is the
delay of the armed setTimeout, none when no timer was armed. -/
structure Session where
  id : String
  port : Nat
  wsBrowserUrl : String
  pid : Option Nat
  expiresAt : Option Nat
  timerDuration : Option Nat
deriving DecidableEq

/-- The option object of createSession.  Fields mirror the destructuring
pattern of the source. -/
structure CreateOptions where
  durationSec : Nat
  headless : Bool
  windowSize : Nat × Nat
  locale : String
  timezone : String
  stealth : Bool
  extraArgs : List String
  port : Option Nat
deriving DecidableEq

/-- The defaults of the destructuring pattern of createSession:
durationSec 3600, headless true, windowSize 1280x939, locale it-IT,
timezone Europe/Rome, stealth true, extraArgs empty, no fixed port. -/
def defaultCreateOptions : CreateOptions :=
  { durationSec := 3600, headless := true, windowSize := (1280, 939),
    locale := "it-IT", timezone := "Europe/Rome", stealth := true,
    extraArgs := [], port := none }

/-- Environment of one createSession call: the port getPort would hand out,
the per-attempt fetch outcomes of the endpoint probe, the current clock
value in milliseconds, and what pidFromPort resolves to. -/
structure LaunchEnv where
  freePort : Nat
  probe : Nat → FetchResult
  now : Nat
  pid : Option Nat

/-- Module-wide mutable state of src/server.js: the plugin list of the
shared chromium launcher and the session registry Map. -/
structure ModuleState where
  plugins : List String
  registry : List (String × Session)
deriving DecidableEq

/-- State right after module load: chromium.use(StealthPlugin()) has run,
the registry Map is empty. -/
def initialModuleState : ModuleState :=
  { plugins := ["stealth"], registry := [] }

/-- registry.get(id). -/
def regGet (reg : List (String × Session)) (id : String) : Option Session :=
  (reg.find? (fun p => decide (p.1 = id))).map (fun p => p.2)

/-- registry.delete(id). -/
def regDelete (reg : List (String × Session)) (id : String) : List (String × Session) :=
  reg.filter (fun p => decide (¬ p.1 = id))

/-- registry.set(id, s). -/
def regSet (reg : List (String × Session)) (id : String) (s : Session) : List (String × Session) :=
  regDelete reg id ++ [(id, s)]

/-- Observable steps of one createSession call.  closeBrowser is the event
a browser.close() on the failure path would emit; createSession never emits
it (there is no close call anywhere in createSession). -/
inductive CreateEvent where
  | launchBrowser (plugins : List String) (port : Nat)
  | newPage
  | probe (e : ProbeEvent)
  | setTimer (ms : Nat)
  | registerSession (id : String)
  | closeBrowser
deriving DecidableEq

/-- fixedPort || (await getPort()): a fixed port of 0 is falsy in the
source, so it falls back to getPort. -/
def portOf (opts : CreateOptions) (env : LaunchEnv) : Nat :=
  match opts.port with
  | some p => if p == 0 then env.freePort else p
  | none => env.freePort

/-- The launcher plugin list seen by chromium.launch inside this call:
stealth false runs chromium.plugins.clear() first. -/
def pluginsAfter (opts : CreateOptions) (st : ModuleState) : List String :=
  if opts.stealth then st.plugins else []

/-- Accumulator pass of lastPathSegment: restart the current segment at
every slash. -/
def lastSegmentAux : List Char → List Char → List Char
  | [], acc => acc
  | c :: cs, acc => if c = '/' then lastSegmentAux cs [] else lastSegmentAux cs (acc ++ [c])

/-- wsBrowserUrl.split of the slash, then .pop(): the characters after the
last slash (the whole string when it has no slash, empty on a trailing
slash). -/
def lastPathSegment (s : String) : String := String.mk (lastSegmentAux s.data [])

/-- The Session record built after a successful probe: id is the trailing
path segment of webSocketDebuggerUrl; expiresAt and the timer exist exactly
when durationSec is positive. -/
def sessionOf (opts : CreateOptions) (env : LaunchEnv) (port : Nat)
    (version : VersionJson) : Session :=
  { id := lastPathSegment version.webSocketDebuggerUrl,
    port := port,
    wsBrowserUrl := version.webSocketDebuggerUrl,
    pid := env.pid,
    expiresAt :=
      if 0 < opts.durationSec then some (env.now + opts.durationSec * 1000) else none,
    timerDuration :=
      if 0 < opts.durationSec then some (opts.durationSec * 1000) else none }

/-- The tail of createSession, from the probe result on: on a probe error
the error propagates as-is (no cleanup of the already-launched browser);
on success the timer is armed when durationSec is positive and the session
is stored in the registry. -/
def createSessionFinish (opts : CreateOptions) (env : LaunchEnv) (st1 : ModuleState)
    (port : Nat) (evs : List CreateEvent) :
    Except DevtoolsError VersionJson → ModuleState × List CreateEvent × Except DevtoolsError Session
  | Except.error e => (st1, evs, Except.error e)
  | Except.ok version =>
    ({ st1 with
        registry := regSet st1.registry (sessionOf opts env port version).id
          (sessionOf opts env port version) },
     evs ++ (if 0 < opts.durationSec then [CreateEvent.setTimer (opts.durationSec * 1000)] else [])
         ++ [CreateEvent.registerSession (sessionOf opts env port version).id],
     Except.ok (sessionOf opts env port version))

/-- createSession from src/server.js: pick the port, optionally clear the
shared plugin list, launch the browser, open the first page, probe the
DevTools endpoint with 60 attempts at 150 ms, then register the session. -/
def createSession (opts : CreateOptions) (env : LaunchEnv) (st : ModuleState) :
    ModuleState × List CreateEvent × Except DevtoolsError Session :=
  let port := portOf opts env
  let plugins := pluginsAfter opts st
  let st1 : ModuleState := { st with plugins := plugins }
  let probeOut := waitForDevtools env.probe port 60 150
  createSessionFinish opts env st1 port
    (CreateEvent.launchBrowser plugins port :: CreateEvent.newPage
      :: probeOut.1.map CreateEvent.probe)
    probeOut.2

/-- Observable steps of one destroySession call.  closeBrowser carries
whether the awaited browser.close() resolved (false: it rejected and the
empty catch swallowed it). -/
inductive DestroyEvent where
  | closeBrowser (ok : Bool)
  | clearTimer
  | registryDelete
deriving DecidableEq

/-- The part of destroySession after the registry membership check, using
the entry s the check returned: await browser.close() (failures swallowed),
then clearTimeout when a timer exists, then registry.delete(id). -/
def destroyTeardown (closeOk : String → Bool) (id : String) (s : Session)
    (st : ModuleState) : ModuleState × List DestroyEvent × Bool :=
  ({ st with registry := regDelete st.registry id },
   DestroyEvent.closeBrowser (closeOk id)
     :: (if s.timerDuration.isSome then [DestroyEvent.clearTimer] else [])
     ++ [DestroyEvent.registryDelete],
   true)

/-- destroySession from src/server.js: registry.get first, false when
absent, otherwise the teardown above and true. -/
def destroySession (closeOk : String → Bool) (id : String) (st : ModuleState) :
    ModuleState × List DestroyEvent × Bool :=
  match regGet st.registry id with
  | none => (st, [], false)
  | some s => destroyTeardown closeOk id s st

/-- The spontaneous steps the rest of the system can take against the
registry: an armed expiry timer firing (its callback calls destroySession),
or an explicit delete request. -/
inductive SysStep where
  | timerFire (id : String)
  | destroyCall (id : String)
deriving DecidableEq

/-- A timer can only fire for a registered session that armed one. -/
def timerArmed (st : ModuleState) (id : String) : Bool :=
  match regGet st.registry id with
  | some s => s.timerDuration.isSome
  | none => false

/-- One system step against the module state. -/
def sysStep (closeOk : String → Bool) (st : ModuleState) : SysStep → ModuleState
  | SysStep.timerFire id => if timerArmed st id then (destroySession closeOk id st).1 else st
  | SysStep.destroyCall id => (destroySession closeOk id st).1

/-- Run a sequence of system steps. -/
def runSteps (closeOk : String → Bool) (steps : List SysStep) (st : ModuleState) : ModuleState :=
  steps.foldl (sysStep closeOk) st

/-- No explicit delete of the given id occurs in the step sequence. -/
def noDestroyCall (id : String) (steps : List SysStep) : Bool :=
  steps.all (fun t => match t with | SysStep.destroyCall j => j != id | _ => true)

/-- Any setTimeout armed in a createSession trace. -/
def hasSetTimer (evs : List CreateEvent) : Bool :=
  evs.any (fun e => match e with | CreateEvent.setTimer _ => true | _ => false)

/-- Observable steps of the signal handler: one destroySession attempt per
registry entry (its trace and boolean result), then process.exit(0). -/
inductive SignalEvent where
  | destroyAttempt (id : String) (evs : List DestroyEvent) (ok : Bool)
  | exitProcess (code : Nat)
deriving DecidableEq

/-- The for-loop of the signal handler: destroySession for each id of the
snapshot, each call wrapped in try/catch so a failure cannot stop the
sweep. -/
def sweepGo (closeOk : String → Bool) :
    List String → ModuleState → List SignalEvent → ModuleState × List SignalEvent
  | [], st, acc => (st, acc)
  | id :: rest, st, acc =>
    let r := destroySession closeOk id st
    sweepGo closeOk rest r.1 (acc ++ [SignalEvent.destroyAttempt id r.2.1 r.2.2])

/-- The signals the handler is installed for. -/
def signalNames : List String := ["SIGINT", "SIGTERM"]

/-- process.on(sig, ...) is registered exactly for the names above. -/
def signalHandlerInstalled (sig : String) : Bool := signalNames.contains sig

/-- The SIGINT/SIGTERM handler: snapshot the registry values, destroy each
by id (best-effort), then exit 0. -/
def handleSignal (closeOk : String → Bool) (st : ModuleState) : ModuleState × List SignalEvent :=
  let ids := st.registry.map (fun p => p.2.id)
  let r := sweepGo closeOk ids st []
  (r.1, r.2 ++ [SignalEvent.exitProcess 0])

/-- The ids of the destroy attempts of a signal trace, in order. -/
def attemptedIds (evs : List SignalEvent) : List String :=
  evs.filterMap (fun e => match e with
    | SignalEvent.destroyAttempt id _ _ => some id
    | _ => none)

/-- Run a sequence of createSession calls (each with its own options and
environment) against the module state, concatenating their traces. -/
def runCalls : List (CreateOptions × LaunchEnv) → ModuleState → ModuleState × List CreateEvent
  | [], st => (st, [])
  | c :: rest, st =>
    let r := createSession c.1 c.2 st
    let r2 := runCalls rest r.1
    (r2.1, r.2.1 ++ r2.2)

/-- Every chromium.launch in the trace ran with an empty plugin list. -/
def launchesStealthFree (evs : List CreateEvent) : Bool :=
  evs.all (fun e => match e with
    | CreateEvent.launchBrowser ps _ => ps.isEmpty
    | _ => true)

/-- One entry of the GET /json/list answer of the browser (the fields the
code reads).  title and webSocketDebuggerUrl may be absent. -/
structure RawTarget where
  id : String
  type : String
  url : String
  title : Option String
  webSocketDebuggerUrl : Option String
deriving DecidableEq

/-- JS truthiness of an optional string: absent and empty are falsy. -/
def jsTruthy : Option String → Bool
  | some s => !s.isEmpty
  | none => false

/-- What listPages maps each kept target to. -/
structure PageInfo where
  id : String
  url : String
  title : String
  ws : String
deriving DecidableEq

/-- listPages from src/server.js: keep targets of type "page" with a truthy
webSocketDebuggerUrl, defaulting title to the empty string. -/
def listPages (targets : List RawTarget) : List PageInfo :=
  (targets.filter (fun x => x.type == "page" && jsTruthy x.webSocketDebuggerUrl)).map
    (fun x => { id := x.id, url := x.url, title := x.title.getD "",
                ws := x.webSocketDebuggerUrl.getD "" })

/-- What evalFocus reports for one page: the two booleans evaluated in the
page, or the all-false fallback when the probe fails. -/
structure FocusInfo where
  visible : Bool
  focus : Bool
deriving DecidableEq

/-- The spread of a page with its evalFocus result, as built inside
findActivePageWs. -/
structure TabCheck extends PageInfo where
  visible : Bool
  focus : Bool
deriving DecidableEq

/-- The Promise.all map of findActivePageWs: pair every page with its
evalFocus outcome.  flags is the environment giving the evalFocus result
per page WebSocket URL. -/
def evalChecks (flags : String → FocusInfo) (pages : List PageInfo) : List TabCheck :=
  pages.map (fun p =>
    { toPageInfo := p, visible := (flags p.ws).visible, focus := (flags p.ws).focus })

/-- The single error findActivePageWs can throw: the Error about no tab of
type page being available. -/
inductive ActiveTabError where
  | noPages
deriving DecidableEq

/-- findActivePageWs from src/server.js: list pages, throw when none,
else first focused check, else first visible check, else pages[0]. -/
def findActivePageWs (flags : String → FocusInfo) (targets : List RawTarget) :
    Except ActiveTabError String :=
  match listPages targets with
  | [] => Except.error ActiveTabError.noPages
  | p0 :: rest =>
    match (evalChecks flags (p0 :: rest)).find? (fun c => c.focus) with
    | some c => Except.ok c.ws
    | none =>
      match (evalChecks flags (p0 :: rest)).find? (fun c => c.visible) with
      | some c => Except.ok c.ws
      | none => Except.ok p0.ws

/-- Per-viewer bridge state: pageClient models the CDP client variable of
the connection handler (none when no client is live), tagged by the page
WebSocket URL it is attached to; currentWs is the currentWs variable. -/
structure BridgeState where
  pageClient : Option String
  currentWs : Option String
deriving DecidableEq

/-- Observable steps of the bridge against the CDP side and the viewer. -/
inductive BridgeEvent where
  | stopScreencast (ws : String)
  | closeClient (ws : String)
  | statusMsg (message : String)
  | openClient (ws : String)
  | enablePage (ws : String)
  | subscribeFrames (ws : String)
  | startScreencast (ws : String)
deriving DecidableEq

/-- stopStream from src/server.js: stop the screencast and close the
client when one is live, then null both variables. -/
def stopStream (st : BridgeState) : BridgeState × List BridgeEvent :=
  match st.pageClient with
  | some ws =>
    ({ st with pageClient := none },
     [BridgeEvent.stopScreencast ws, BridgeEvent.closeClient ws])
  | none => (st, [])

/-- attachAndStream from src/server.js: a no-op when the target is already
the streamed one and a client is live; otherwise stop the old stream, open
a client on the target, enable page events, subscribe frames, start the
screencast and record the target as current. -/
def attachAndStream (targetWs : String) (st : BridgeState) : BridgeState × List BridgeEvent :=
  if st.currentWs == some targetWs && st.pageClient.isSome then (st, [])
  else
    let r := stopStream st
    ({ pageClient := some targetWs, currentWs := some targetWs },
     r.2 ++ [BridgeEvent.statusMsg "Connessione al tab attivo…",
             BridgeEvent.openClient targetWs,
             BridgeEvent.enablePage targetWs,
             BridgeEvent.subscribeFrames targetWs,
             BridgeEvent.startScreencast targetWs,
             BridgeEvent.statusMsg "In diretta (tab attivo) ✔"])

/-- One tick of the 700 ms watcher interval, given the freshly resolved
active-tab endpoint: re-attach only when it differs from currentWs. -/
def watcherPoll (next : String) (st : BridgeState) : BridgeState × List BridgeEvent :=
  if some next == st.currentWs then (st, []) else attachAndStream next st

/-- Number of CDP clients opened in a bridge trace. -/
def countOpens (evs : List BridgeEvent) : Nat :=
  evs.countP (fun e => match e with | BridgeEvent.openClient _ => true | _ => false)

/-- Number of CDP clients closed in a bridge trace. -/
def countCloses (evs : List BridgeEvent) : Nat :=
  evs.countP (fun e => match e with | BridgeEvent.closeClient _ => true | _ => false)

/-- The metadata of a screencastFrame event (the fields the code reads). -/
structure FrameMeta where
  deviceWidth : Nat
  deviceHeight : Nat
deriving DecidableEq

/-- One Page.screencastFrame event: encoded image data, optional metadata,
and the sessionId the ack must carry. -/
structure ScreencastFrame where
  data : String
  metadata : Option FrameMeta
  sessionId : Nat
deriving DecidableEq

/-- A message the bridge sends to the viewer over the /bridge socket. -/
inductive ViewerMsg where
  | frame (data : String) (w h : Option Nat)
  | statusText (message : String)
deriving DecidableEq

/-- Actions of the screencastFrame handler, in execution order.
awaitViewer would model a wait on the viewer round-trip; the handler never
performs one. -/
inductive HandlerAction where
  | sendViewer (m : ViewerMsg)
  | ackSource (sessionId : Nat)
  | awaitViewer
deriving DecidableEq

/-- The send helper of the connection handler: wsClient.send only when
readyState is 1 (fire-and-forget, no await). -/
def sendIfOpen (readyState : Nat) (m : ViewerMsg) : List HandlerAction :=
  if readyState == 1 then [HandlerAction.sendViewer m] else []

/-- The page.screencastFrame callback: forward the frame (data plus the
declared device dimensions) to the viewer, then acknowledge it to the
capture source with its sessionId, all inside the same synchronous
handler. -/
def screencastFrameHandler (readyState : Nat) (f : ScreencastFrame) : List HandlerAction :=
  sendIfOpen readyState
      (ViewerMsg.frame f.data (f.metadata.map (fun m => m.deviceWidth))
        (f.metadata.map (fun m => m.deviceHeight)))
    ++ [HandlerAction.ackSource f.sessionId]

/-- A probe environment in which the endpoint never answers: every fetch
throws (this is also exactly what a probe against an already-terminated
process observes, since a dead process refuses every connection). -/
def probeNeverUp : Nat → FetchResult := fun _ => FetchResult.connExn

/-- A launch environment whose endpoint probe never succeeds. -/
def envNeverUp : LaunchEnv :=
  { freePort := 9222, probe := probeNeverUp, now := 0, pid := none }

/-- A launch environment whose endpoint probe succeeds at once. -/
def envUpAtOnce : LaunchEnv :=
  { freePort := 9300,
    probe := fun _ =>
      FetchResult.ok { webSocketDebuggerUrl := "ws://127.0.0.1:9300/devtools/browser/abc123" },
    now := 1000, pid := some 42 }

/-- A registered session whose expiry timer is armed. -/
def sessionA : Session :=
  { id := "a", port := 9400, wsBrowserUrl := "ws://127.0.0.1:9400/devtools/browser/a",
    pid := some 7, expiresAt := some 5000, timerDuration := some 5000 }

/-- A module state holding exactly sessionA. -/
def stWithA : ModuleState :=
  { plugins := ["stealth"], registry := [("a", sessionA)] }

/-! ## Helper lemmas about the endpoint prober -/

theorem waitGo_count (probe : Nat → FetchResult) (port sleepMs : Nat) :
    ∀ (n i : Nat), countFetches (waitForDevtoolsGo probe port sleepMs i n).1 ≤ n := by
  intro n
  induction n with
  | zero => intro i; simp [waitForDevtoolsGo, countFetches]
  | succ k ih =>
    intro i
    cases hp : probe i with
    | ok body => simp [waitForDevtoolsGo, hp, countFetches]
    | notOk =>
      have h := ih (i + 1)
      simp [waitForDevtoolsGo, hp, countFetches, List.countP_cons] at h ⊢
      omega
    | connExn =>
      have h := ih (i + 1)
      simp [waitForDevtoolsGo, hp, countFetches, List.countP_cons] at h ⊢
      omega

theorem waitGo_error_iff (probe : Nat → FetchResult) (port sleepMs : Nat) :
    ∀ (n i : Nat),
      (waitForDevtoolsGo probe port sleepMs i n).2 =
          Except.error (DevtoolsError.unreachable port) ↔
        ∀ k, k < n → isOkFetch (probe (i + k)) = false := by
  intro n
  induction n with
  | zero => intro i; simp [waitForDevtoolsGo]
  | succ m ih =>
    intro i
    cases hp : probe i with
    | ok body =>
      simp only [waitForDevtoolsGo, hp]
      constructor
      · intro h; exact absurd h (by simp)
      · intro h
        have h0 := h 0 (Nat.succ_pos m)
        rw [Nat.add_zero, hp] at h0
        simp [isOkFetch] at h0
    | notOk =>
      simp only [waitForDevtoolsGo, hp]
      rw [ih (i + 1)]
      constructor
      · intro h k hk
        cases k with
        | zero => rw [Nat.add_zero, hp]; rfl
        | succ j =>
          have hj : j < m := Nat.lt_of_succ_lt_succ hk
          have := h j hj
          rwa [show i + 1 + j = i + (j + 1) by omega] at this
      · intro h k hk
        have := h (k + 1) (Nat.succ_lt_succ hk)
        rwa [show i + (k + 1) = i + 1 + k by omega] at this
    | connExn =>
      simp only [waitForDevtoolsGo, hp]
      rw [ih (i + 1)]
      constructor
      · intro h k hk
        cases k with
        | zero => rw [Nat.add_zero, hp]; rfl
        | succ j =>
          have hj : j < m := Nat.lt_of_succ_lt_succ hk
          have := h j hj
          rwa [show i + 1 + j = i + (j + 1) by omega] at this
      · intro h k hk
        have := h (k + 1) (Nat.succ_lt_succ hk)
        rwa [show i + (k + 1) = i + 1 + k by omega] at this

theorem waitGo_sleeps (probe : Nat → FetchResult) (port sleepMs : Nat) :
    ∀ (n i : Nat), allSleeps (waitForDevtoolsGo probe port sleepMs i n).1 sleepMs = true := by
  intro n
  induction n with
  | zero => intro i; simp [waitForDevtoolsGo, allSleeps]
  | succ m ih =>
    intro i
    cases hp : probe i with
    | ok body => simp [waitForDevtoolsGo, hp, allSleeps]
    | notOk =>
      have h := ih (i + 1)
      simp only [waitForDevtoolsGo, hp, allSleeps, List.all_cons] at h ⊢
      simpa using h
    | connExn =>
      have h := ih (i + 1)
      simp only [waitForDevtoolsGo, hp, allSleeps, List.all_cons] at h ⊢
      simpa using h

/-! ## Helper lemmas about the registry -/

theorem regGet_delete_self (reg : List (String × Session)) (id : String) :
    regGet (regDelete reg id) id = none := by
  unfold regGet regDelete
  have h : (reg.filter (fun p => decide (¬ p.1 = id))).find? (fun p => decide (p.1 = id)) = none := by
    rw [List.find?_eq_none]
    intro x hx
    rcases List.mem_filter.mp hx with ⟨_, hkeep⟩
    simp at hkeep
    simp [hkeep]
  rw [h]
  rfl

theorem find?_delete_ne (rest : List (String × Session)) (id id2 : String)
    (h : id ≠ id2) :
    (rest.filter (fun p => decide (¬ p.1 = id2))).find? (fun p => decide (p.1 = id)) =
      rest.find? (fun p => decide (p.1 = id)) := by
  induction rest with
  | nil => rfl
  | cons p rest ih =>
    rw [List.filter_cons]
    by_cases hp2 : p.1 = id2
    · rw [if_neg (by simp [hp2])]
      have hne : ¬ p.1 = id := by
        rw [hp2]
        exact fun hc => h hc.symm
      rw [List.find?_cons_of_neg _ (by simpa using hne)]
      exact ih
    · rw [if_pos (by simp [hp2])]
      by_cases hp1 : p.1 = id
      · rw [List.find?_cons_of_pos _ (by simpa using hp1),
            List.find?_cons_of_pos _ (by simpa using hp1)]
      · rw [List.find?_cons_of_neg _ (by simpa using hp1),
            List.find?_cons_of_neg _ (by simpa using hp1)]
        exact ih

theorem regGet_delete_ne (reg : List (String × Session)) (id id2 : String)
    (h : id ≠ id2) : regGet (regDelete reg id2) id = regGet reg id := by
  unfold regGet regDelete
  rw [find?_delete_ne reg id id2 h]

theorem regGet_set_self (reg : List (String × Session)) (id : String) (s : Session) :
    regGet (regSet reg id s) id = some s := by
  unfold regSet
  have h : (regDelete reg id).find? (fun p => decide (p.1 = id)) = none := by
    have h2 := regGet_delete_self reg id
    unfold regGet at h2
    exact Option.map_eq_none'.mp h2
  unfold regGet
  rw [List.find?_append, h]
  simp [List.find?]

/-! ## Helper lemmas about destroySession and the shutdown sweep -/

theorem destroySession_registry (closeOk : String → Bool) (id : String) (st : ModuleState) :
    (destroySession closeOk id st).1.registry = regDelete st.registry id := by
  unfold destroySession
  cases h : regGet st.registry id with
  | none =>
    have hf : st.registry.find? (fun p => decide (p.1 = id)) = none := by
      unfold regGet at h
      exact Option.map_eq_none'.mp h
    have : regDelete st.registry id = st.registry := by
      unfold regDelete
      rw [List.filter_eq_self]
      intro p hp
      have := List.find?_eq_none.mp hf p hp
      simpa using this
    rw [this]
  | some s => rfl

theorem destroySession_preserves_other (closeOk : String → Bool) (id id2 : String)
    (st : ModuleState) (h : id ≠ id2) :
    regGet (destroySession closeOk id2 st).1.registry id = regGet st.registry id := by
  rw [destroySession_registry]
  exact regGet_delete_ne st.registry id id2 h

theorem runSteps_preserves_untimered (closeOk : String → Bool) (steps : List SysStep) :
    ∀ (st : ModuleState) (id : String) (s : Session),
      regGet st.registry id = some s → s.timerDuration = none →
      noDestroyCall id steps = true →
      regGet (runSteps closeOk steps st).registry id = some s := by
  induction steps with
  | nil => intro st id s h _ _; exact h
  | cons t rest ih =>
    intro st id s h htd hnd
    have hnd2 : noDestroyCall id rest = true := by
      unfold noDestroyCall at hnd ⊢
      rw [List.all_cons] at hnd
      exact (Bool.and_eq_true_iff.mp hnd).2
    have hstep : regGet (sysStep closeOk st t).registry id = some s := by
      cases t with
      | timerFire j =>
        by_cases hj : j = id
        · subst hj
          have harm : timerArmed st j = false := by
            simp [timerArmed, h, htd]
          simp only [sysStep]
          rw [harm]
          simpa using h
        · simp only [sysStep]
          by_cases harm : timerArmed st j = true
          · rw [if_pos harm,
              destroySession_preserves_other closeOk id j st (fun hc => hj hc.symm)]
            exact h
          · rw [if_neg harm]
            exact h
      | destroyCall j =>
        have hj : j ≠ id := by
          unfold noDestroyCall at hnd
          rw [List.all_cons] at hnd
          have := (Bool.and_eq_true_iff.mp hnd).1
          simpa using this
        simp only [sysStep]
        rw [destroySession_preserves_other closeOk id j st (fun hc => hj hc.symm)]
        exact h
    have hrun : runSteps closeOk (t :: rest) st = runSteps closeOk rest (sysStep closeOk st t) := rfl
    rw [hrun]
    exact ih (sysStep closeOk st t) id s hstep htd hnd2

theorem sweepGo_registry_mem (closeOk : String → Bool) :
    ∀ (ids : List String) (st : ModuleState) (acc : List SignalEvent)
      (p : String × Session),
      p ∈ (sweepGo closeOk ids st acc).1.registry → p ∈ st.registry ∧ p.1 ∉ ids := by
  intro ids
  induction ids with
  | nil =>
    intro st acc p hp
    exact ⟨hp, by simp⟩
  | cons id rest ih =>
    intro st acc p hp
    have hrec := ih (destroySession closeOk id st).1 _ p hp
    rcases hrec with ⟨hmem, hnot⟩
    rw [destroySession_registry] at hmem
    unfold regDelete at hmem
    rcases List.mem_filter.mp hmem with ⟨hmem2, hkeep⟩
    have hne : p.1 ≠ id := by simpa using hkeep
    refine ⟨hmem2, ?_⟩
    simp [hne, hnot]

theorem sweepGo_attempts (closeOk : String → Bool) :
    ∀ (ids : List String) (st : ModuleState) (acc : List SignalEvent),
      attemptedIds (sweepGo closeOk ids st acc).2 = attemptedIds acc ++ ids := by
  intro ids
  induction ids with
  | nil => intro st acc; simp [sweepGo]
  | cons id rest ih =>
    intro st acc
    have h := ih (destroySession closeOk id st).1
      (acc ++ [SignalEvent.destroyAttempt id (destroySession closeOk id st).2.1
        (destroySession closeOk id st).2.2])
    unfold sweepGo
    rw [h]
    unfold attemptedIds
    rw [List.filterMap_append]
    simp

/-! ## Helper lemmas about createSession -/

theorem createSession_eq (opts : CreateOptions) (env : LaunchEnv) (st : ModuleState) :
    createSession opts env st =
      createSessionFinish opts env { st with plugins := pluginsAfter opts st }
        (portOf opts env)
        (CreateEvent.launchBrowser (pluginsAfter opts st) (portOf opts env)
          :: CreateEvent.newPage
          :: (waitForDevtools env.probe (portOf opts env) 60 150).1.map CreateEvent.probe)
        (waitForDevtools env.probe (portOf opts env) 60 150).2 := rfl

theorem createSessionFinish_plugins (opts : CreateOptions) (env : LaunchEnv)
    (st1 : ModuleState) (port : Nat) (evs : List CreateEvent)
    (r : Except DevtoolsError VersionJson) :
    (createSessionFinish opts env st1 port evs r).1.plugins = st1.plugins := by
  cases r <;> rfl

theorem createSessionFinish_launch_mem (opts : CreateOptions) (env : LaunchEnv)
    (st1 : ModuleState) (port : Nat) (evs : List CreateEvent)
    (r : Except DevtoolsError VersionJson) (ps : List String) (pt : Nat) :
    CreateEvent.launchBrowser ps pt ∈ (createSessionFinish opts env st1 port evs r).2.1 →
      CreateEvent.launchBrowser ps pt ∈ evs := by
  cases r with
  | error e => intro h; exact h
  | ok version =>
    intro h
    simp only [createSessionFinish, List.mem_append] at h
    rcases h with (h | h) | h
    · exact h
    · by_cases hd : 0 < opts.durationSec
      · rw [if_pos hd] at h
        simp at h
      · rw [if_neg hd] at h
        simp at h
    · simp at h

theorem createSession_launch_plugins (opts : CreateOptions) (env : LaunchEnv)
    (st : ModuleState) (ps : List String) (pt : Nat) :
    CreateEvent.launchBrowser ps pt ∈ (createSession opts env st).2.1 →
      ps = pluginsAfter opts st := by
  rw [createSession_eq]
  intro h
  have h2 := createSessionFinish_launch_mem _ _ _ _ _ _ _ _ h
  simp only [List.mem_cons] at h2
  rcases h2 with h2 | h2 | h2
  · exact (CreateEvent.launchBrowser.injEq _ _ _ _).mp h2 |>.1
  · exact absurd h2 (by simp)
  · exact absurd h2 (by simp)

theorem createSession_plugins (opts : CreateOptions) (env : LaunchEnv) (st : ModuleState) :
    (createSession opts env st).1.plugins = pluginsAfter opts st := by
  rw [createSession_eq, createSessionFinish_plugins]

theorem createSession_stealth_free (opts : CreateOptions) (env : LaunchEnv)
    (st : ModuleState) (h : pluginsAfter opts st = []) :
    (createSession opts env st).1.plugins = [] ∧
      launchesStealthFree (createSession opts env st).2.1 = true := by
  constructor
  · rw [createSession_plugins, h]
  · unfold launchesStealthFree
    rw [List.all_eq_true]
    intro e he
    cases e with
    | launchBrowser ps pt =>
      have hps := createSession_launch_plugins opts env st ps pt he
      rw [hps, h]
      rfl
    | newPage => rfl
    | probe pe => rfl
    | setTimer ms => rfl
    | registerSession i => rfl
    | closeBrowser => rfl

theorem runCalls_stealth_free :
    ∀ (calls : List (CreateOptions × LaunchEnv)) (st : ModuleState),
      st.plugins = [] →
      (runCalls calls st).1.plugins = [] ∧ launchesStealthFree (runCalls calls st).2 = true := by
  intro calls
  induction calls with
  | nil => intro st h; exact ⟨h, rfl⟩
  | cons c rest ih =>
    intro st h
    have hpa : pluginsAfter c.1 st = [] := by
      unfold pluginsAfter
      rw [h]
      simp
    have hc := createSession_stealth_free c.1 c.2 st hpa
    have hr := ih (createSession c.1 c.2 st).1 hc.1
    unfold runCalls
    constructor
    · exact hr.1
    · unfold launchesStealthFree at hc hr ⊢
      rw [List.all_append, hc.2, hr.2]
      rfl

/-! ## Helper lemmas about active-tab resolution -/

theorem evalChecks_find_focus (flags : String → FocusInfo) (pages : List PageInfo) :
    (evalChecks flags pages).find? (fun c => c.focus) =
      (pages.find? (fun p => (flags p.ws).focus)).map
        (fun p => { toPageInfo := p, visible := (flags p.ws).visible,
                    focus := (flags p.ws).focus }) := by
  unfold evalChecks
  rw [List.find?_map]
  rfl

theorem evalChecks_find_visible (flags : String → FocusInfo) (pages : List PageInfo) :
    (evalChecks flags pages).find? (fun c => c.visible) =
      (pages.find? (fun p => (flags p.ws).visible)).map
        (fun p => { toPageInfo := p, visible := (flags p.ws).visible,
                    focus := (flags p.ws).focus }) := by
  unfold evalChecks
  rw [List.find?_map]
  rfl

/-! ## Claim theorems -/

/-- C1: on a createSession run whose endpoint probe exhausts its whole
attempt budget, the call returns the timeout error while the trace shows
the browser was launched and never closed — the partially-started process
outlives the failed creation, contradicting the spec requirement that it
be terminated before the error is returned. -/
theorem createSession_timeout_leaves_browser_running :
    (createSession defaultCreateOptions envNeverUp initialModuleState).2.2 =
        Except.error (DevtoolsError.unreachable 9222) ∧
    CreateEvent.launchBrowser ["stealth"] 9222
        ∈ (createSession defaultCreateOptions envNeverUp initialModuleState).2.1 ∧
    CreateEvent.closeBrowser
        ∉ (createSession defaultCreateOptions envNeverUp initialModuleState).2.1 := by
  decide

/-- C2 counterexample: a createSession call with durationSec omitted (the
default options) produces a session with a non-null expiresAt and an armed
3600-second timer, refuting the claim that an omitted durationSec means no
expiry timer and a null expiresAt. -/
theorem createSession_default_duration_expires :
    (createSession defaultCreateOptions envUpAtOnce initialModuleState).2.2 =
      Except.ok { id := "abc123", port := 9300,
                  wsBrowserUrl := "ws://127.0.0.1:9300/devtools/browser/abc123",
                  pid := some 42, expiresAt := some 3601000,
                  timerDuration := some 3600000 } ∧
    CreateEvent.setTimer 3600000
      ∈ (createSession defaultCreateOptions envUpAtOnce initialModuleState).2.1 := by
  decide

/-- C2 (amended): on every successful createSession call, a positive
durationSec yields expiresAt = now + durationSec seconds and arms a timer
of that duration, while an explicit durationSec of 0 yields a null
expiresAt, arms no timer, and the session then stays in the registry under
any sequence of timer firings and deletions of other ids until an explicit
delete of its own id.  (durationSec omitted defaults to 3600, not to the
unbounded case.) -/
theorem createSession_duration_semantics
    (opts : CreateOptions) (env : LaunchEnv) (st : ModuleState)
    (closeOk : String → Bool) (s : Session) (steps : List SysStep)
    (hok : (createSession opts env st).2.2 = Except.ok s) :
    (0 < opts.durationSec →
       s.expiresAt = some (env.now + opts.durationSec * 1000) ∧
       CreateEvent.setTimer (opts.durationSec * 1000) ∈ (createSession opts env st).2.1) ∧
    (opts.durationSec = 0 →
       s.expiresAt = none ∧
       hasSetTimer (createSession opts env st).2.1 = false ∧
       regGet (createSession opts env st).1.registry s.id = some s ∧
       (noDestroyCall s.id steps = true →
          regGet (runSteps closeOk steps (createSession opts env st).1).registry s.id =
            some s)) := by
  rw [createSession_eq] at hok ⊢
  cases hr : (waitForDevtools env.probe (portOf opts env) 60 150).2 with
  | error e =>
    rw [hr] at hok
    exact absurd hok (by simp [createSessionFinish])
  | ok version =>
    rw [hr] at hok
    simp only [createSessionFinish] at hok ⊢
    have hs : s = sessionOf opts env (portOf opts env) version :=
      ((Except.ok.injEq _ _).mp hok).symm
    subst hs
    constructor
    · intro hd
      constructor
      · simp [sessionOf, hd]
      · rw [if_pos hd]
        simp [List.mem_append]
    · intro hd0
      have hd : ¬ 0 < opts.durationSec := by omega
      rw [if_neg hd]
      refine ⟨?_, ?_, ?_, ?_⟩
      · simp [sessionOf, hd]
      · simp [hasSetTimer, List.any_append, List.any_map, Function.comp]
      · exact regGet_set_self _ _ _
      · intro hnd
        exact runSteps_preserves_untimered closeOk steps _ _ _
          (regGet_set_self _ _ _) (by simp [sessionOf, hd]) hnd

/-- Options identical to the defaults except durationSec explicitly 0. -/
def optsNoExpiry : CreateOptions := { defaultCreateOptions with durationSec := 0 }

/-- The session a durationSec-0 creation against envUpAtOnce builds. -/
def sessNoExpiry : Session :=
  { id := "abc123", port := 9300,
    wsBrowserUrl := "ws://127.0.0.1:9300/devtools/browser/abc123",
    pid := some 42, expiresAt := none, timerDuration := none }

/-- Steps that fire a (non-armed) timer of the session and delete another
id, but never delete the session itself. -/
def stepsBenign : List SysStep :=
  [SysStep.timerFire "abc123", SysStep.destroyCall "other"]

/-- Witness for C2 (amended) at a concrete durationSec-0 creation. -/
theorem createSession_duration_semantics_witness :
    (createSession optsNoExpiry envUpAtOnce initialModuleState).2.2 =
        Except.ok sessNoExpiry ∧
    sessNoExpiry.expiresAt = none ∧
    hasSetTimer (createSession optsNoExpiry envUpAtOnce initialModuleState).2.1 = false ∧
    regGet (runSteps (fun _ => true) stepsBenign
        (createSession optsNoExpiry envUpAtOnce initialModuleState).1).registry
      sessNoExpiry.id = some sessNoExpiry := by
  have h := createSession_duration_semantics optsNoExpiry envUpAtOnce initialModuleState
    (fun _ => true) sessNoExpiry stepsBenign (by decide)
  have h0 := h.2 rfl
  exact ⟨by decide, h0.1, h0.2.1, h0.2.2.2 (by decide)⟩

/-- C3 counterexample: destroying a registered session with an armed timer
runs browser close first, timer cancellation second and registry removal
last — the first teardown step is not the timer cancellation the claim
requires. -/
theorem destroySession_order_counterexample :
    (destroySession (fun _ => true) "a" stWithA).2.1 =
      [DestroyEvent.closeBrowser true, DestroyEvent.clearTimer,
       DestroyEvent.registryDelete] ∧
    ((destroySession (fun _ => true) "a" stWithA).2.1).head? ≠
      some DestroyEvent.clearTimer := by
  decide

/-- C3 (amended): destroy(id) checks membership first; for a registered
session the teardown order is: request browser termination, then cancel
the timer (when armed), then remove the registry entry, returning true and
leaving the id unregistered.  The membership check is not atomic with the
removal: it precedes the awaited browser close, so a second destroy whose
check also ran before the first removal executes the full teardown again
and also completes with true (its first step closing the browser again),
instead of observing "not found". -/
theorem destroySession_semantics (closeOk : String → Bool) (id : String)
    (st : ModuleState) (s : Session)
    (h : regGet st.registry id = some s) :
    (destroySession closeOk id st).2.1 =
        DestroyEvent.closeBrowser (closeOk id)
          :: ((if s.timerDuration.isSome then [DestroyEvent.clearTimer] else [])
              ++ [DestroyEvent.registryDelete]) ∧
    (destroySession closeOk id st).2.2 = true ∧
    regGet (destroySession closeOk id st).1.registry id = none ∧
    (destroyTeardown closeOk id s (destroySession closeOk id st).1).2.2 = true ∧
    (destroyTeardown closeOk id s (destroySession closeOk id st).1).2.1.head? =
      some (DestroyEvent.closeBrowser (closeOk id)) := by
  unfold destroySession
  rw [h]
  refine ⟨rfl, rfl, ?_, rfl, rfl⟩
  show regGet (destroyTeardown closeOk id s st).1.registry id = none
  unfold destroyTeardown
  exact regGet_delete_self _ _

/-- Witness for C3 (amended) at a concrete registered session. -/
theorem destroySession_semantics_witness :
    (destroySession (fun _ => true) "a" stWithA).2.2 = true ∧
    regGet (destroySession (fun _ => true) "a" stWithA).1.registry "a" = none ∧
    (destroyTeardown (fun _ => true) "a" sessionA
        (destroySession (fun _ => true) "a" stWithA).1).2.2 = true := by
  have h := destroySession_semantics (fun _ => true) "a" stWithA sessionA (by decide)
  exact ⟨h.2.1, h.2.2.1, h.2.2.2.1⟩

/-- C4 counterexample: against an endpoint whose process never answers (a
terminated process refuses every connection), the launch-time prober still
issues all 60 fetches and then fails with the unreachable error — it does
not fail immediately on process death, since the code has no liveness
check at all. -/
theorem waitForDevtools_no_liveness_check :
    countFetches (waitForDevtools probeNeverUp 9222 60 150).1 = 60 ∧
    (waitForDevtools probeNeverUp 9222 60 150).2 =
      Except.error (DevtoolsError.unreachable 9222) := by
  decide

/-- C4 (amended): the prober issues at most maxAttempts fetches, sleeps
its fixed interval between attempts, and fails with the unreachable error
exactly when no attempt within the budget gets an ok response; it performs
no process-liveness check, so a dead process consumes the full budget. -/
theorem waitForDevtools_budget (probe : Nat → FetchResult)
    (port attempts sleepMs : Nat) :
    countFetches (waitForDevtools probe port attempts sleepMs).1 ≤ attempts ∧
    ((waitForDevtools probe port attempts sleepMs).2 =
        Except.error (DevtoolsError.unreachable port) ↔
      ∀ i, i < attempts → isOkFetch (probe i) = false) ∧
    allSleeps (waitForDevtools probe port attempts sleepMs).1 sleepMs = true := by
  refine ⟨waitGo_count probe port sleepMs attempts 0, ?_,
    waitGo_sleeps probe port sleepMs attempts 0⟩
  have h := waitGo_error_iff probe port sleepMs attempts 0
  simpa using h

/-- C5: on a non-empty filtered page list, resolution returns the first
focused candidate's endpoint; with no focused candidate, the first visible
one's; with neither, the first page's — it never fails on a non-empty
list. -/
theorem findActivePageWs_priority (flags : String → FocusInfo)
    (targets : List RawTarget) (h : listPages targets ≠ []) :
    match (listPages targets).find? (fun p => (flags p.ws).focus) with
    | some p => findActivePageWs flags targets = Except.ok p.ws
    | none =>
      match (listPages targets).find? (fun p => (flags p.ws).visible) with
      | some p => findActivePageWs flags targets = Except.ok p.ws
      | none =>
        findActivePageWs flags targets =
          Except.ok (((listPages targets).head?.getD
            { id := "", url := "", title := "", ws := "" }).ws) := by
  cases hp : listPages targets with
  | nil => exact absurd hp h
  | cons p0 rest =>
    have hunfold : findActivePageWs flags targets =
        (match (evalChecks flags (p0 :: rest)).find? (fun c => c.focus) with
         | some c => Except.ok c.ws
         | none =>
           match (evalChecks flags (p0 :: rest)).find? (fun c => c.visible) with
           | some c => Except.ok c.ws
           | none => Except.ok p0.ws) := by
      unfold findActivePageWs
      rw [hp]
    cases hf : (p0 :: rest).find? (fun p => (flags p.ws).focus) with
    | some q =>
      show findActivePageWs flags targets = Except.ok q.ws
      rw [hunfold, evalChecks_find_focus, hf]
      rfl
    | none =>
      cases hv : (p0 :: rest).find? (fun p => (flags p.ws).visible) with
      | some q =>
        show findActivePageWs flags targets = Except.ok q.ws
        rw [hunfold, evalChecks_find_focus, hf, evalChecks_find_visible, hv]
        rfl
      | none =>
        show findActivePageWs flags targets = Except.ok ((p0 :: rest).head?.getD
          { id := "", url := "", title := "", ws := "" }).ws
        rw [hunfold, evalChecks_find_focus, hf, evalChecks_find_visible, hv]
        rfl

/-- A target list giving one focused page, one merely visible page and one
background page. -/
def targetsThree : List RawTarget :=
  [{ id := "t1", type := "page", url := "https://one.example",
     title := some "one", webSocketDebuggerUrl := some "ws://p/1" },
   { id := "t2", type := "page", url := "https://two.example",
     title := some "two", webSocketDebuggerUrl := some "ws://p/2" },
   { id := "t3", type := "page", url := "https://three.example",
     title := none, webSocketDebuggerUrl := some "ws://p/3" }]

/-- Focus flags for targetsThree: page 2 is visible, page 3 is focused. -/
def flagsThree : String → FocusInfo := fun ws =>
  if ws = "ws://p/2" then { visible := true, focus := false }
  else if ws = "ws://p/3" then { visible := true, focus := true }
  else { visible := false, focus := false }

/-- Witness for C5: the focused page wins over the merely visible one. -/
theorem findActivePageWs_priority_witness :
    listPages targetsThree ≠ [] ∧
    findActivePageWs flagsThree targetsThree = Except.ok "ws://p/3" := by
  have h := findActivePageWs_priority flagsThree targetsThree (by decide)
  refine ⟨by decide, ?_⟩
  simpa using h

/-- C6: resolution fails with the no-pages error exactly when the target
list filtered to page-type entries with a page-level debugging endpoint is
empty. -/
theorem findActivePageWs_noPages_iff (flags : String → FocusInfo)
    (targets : List RawTarget) :
    findActivePageWs flags targets = Except.error ActiveTabError.noPages ↔
      listPages targets = [] := by
  cases hp : listPages targets with
  | nil =>
    constructor
    · intro _; rfl
    · intro _
      unfold findActivePageWs
      rw [hp]
  | cons p0 rest =>
    constructor
    · intro hcontra
      have hunfold : findActivePageWs flags targets =
          (match (evalChecks flags (p0 :: rest)).find? (fun c => c.focus) with
           | some c => Except.ok c.ws
           | none =>
             match (evalChecks flags (p0 :: rest)).find? (fun c => c.visible) with
             | some c => Except.ok c.ws
             | none => Except.ok p0.ws) := by
        unfold findActivePageWs
        rw [hp]
      rw [hunfold] at hcontra
      cases hf : (evalChecks flags (p0 :: rest)).find? (fun c => c.focus) with
      | some c =>
        rw [hf] at hcontra
        exact absurd hcontra (by simp)
      | none =>
        rw [hf] at hcontra
        cases hv : (evalChecks flags (p0 :: rest)).find? (fun c => c.visible) with
        | some c =>
          rw [hv] at hcontra
          exact absurd hcontra (by simp)
        | none =>
          rw [hv] at hcontra
          exact absurd hcontra (by simp)
    · intro hcontra
      exact absurd hcontra (List.cons_ne_nil _ _)

/-- C7: with a live attachment streaming tab old, a poll resolving a
different tab closes exactly one old attachment before opening exactly one
new one (stop screencast and close on old, then connect, enable, subscribe
and start on next), while a poll resolving the same tab leaves the
attachment untouched. -/
theorem watcherPoll_single_reattach (old next : String) (st : BridgeState)
    (hpc : st.pageClient = some old) (hcw : st.currentWs = some old)
    (hne : next ≠ old) :
    watcherPoll next st =
      ({ pageClient := some next, currentWs := some next },
       [BridgeEvent.stopScreencast old, BridgeEvent.closeClient old,
        BridgeEvent.statusMsg "Connessione al tab attivo…",
        BridgeEvent.openClient next, BridgeEvent.enablePage next,
        BridgeEvent.subscribeFrames next, BridgeEvent.startScreencast next,
        BridgeEvent.statusMsg "In diretta (tab attivo) ✔"]) ∧
    countCloses (watcherPoll next st).2 = 1 ∧
    countOpens (watcherPoll next st).2 = 1 ∧
    watcherPoll old st = (st, []) := by
  have hmain : watcherPoll next st =
      ({ pageClient := some next, currentWs := some next },
       [BridgeEvent.stopScreencast old, BridgeEvent.closeClient old,
        BridgeEvent.statusMsg "Connessione al tab attivo…",
        BridgeEvent.openClient next, BridgeEvent.enablePage next,
        BridgeEvent.subscribeFrames next, BridgeEvent.startScreencast next,
        BridgeEvent.statusMsg "In diretta (tab attivo) ✔"]) := by
    unfold watcherPoll attachAndStream stopStream
    rw [hpc, hcw]
    simp [hne, Ne.symm hne]
  refine ⟨hmain, ?_, ?_, ?_⟩
  · rw [hmain]
    rfl
  · rw [hmain]
    rfl
  · unfold watcherPoll
    rw [hcw]
    simp

/-- A bridge state with a live attachment streaming tab a. -/
def bridgeA : BridgeState := { pageClient := some "a", currentWs := some "a" }

/-- Witness for C7 at a concrete tab switch and a concrete same-tab poll. -/
theorem watcherPoll_single_reattach_witness :
    watcherPoll "b" bridgeA =
      ({ pageClient := some "b", currentWs := some "b" },
       [BridgeEvent.stopScreencast "a", BridgeEvent.closeClient "a",
        BridgeEvent.statusMsg "Connessione al tab attivo…",
        BridgeEvent.openClient "b", BridgeEvent.enablePage "b",
        BridgeEvent.subscribeFrames "b", BridgeEvent.startScreencast "b",
        BridgeEvent.statusMsg "In diretta (tab attivo) ✔"]) ∧
    watcherPoll "a" bridgeA = (bridgeA, []) := by
  have h := watcherPoll_single_reattach "a" "b" bridgeA rfl rfl (by decide)
  exact ⟨h.1, h.2.2.2⟩

/-- C8: with the viewer socket open, every received screencast frame is
forwarded to the viewer as a frame message carrying the encoded data and
the declared device dimensions, and the acknowledgment with the frame's
sessionId follows immediately inside the same handler, with no wait on the
viewer anywhere. -/
theorem screencastFrame_forward_and_ack (readyState : Nat) (f : ScreencastFrame)
    (h : readyState = 1) :
    screencastFrameHandler readyState f =
      [HandlerAction.sendViewer (ViewerMsg.frame f.data
          (f.metadata.map (fun m => m.deviceWidth))
          (f.metadata.map (fun m => m.deviceHeight))),
       HandlerAction.ackSource f.sessionId] ∧
    HandlerAction.awaitViewer ∉ screencastFrameHandler readyState f := by
  subst h
  constructor
  · rfl
  · simp [screencastFrameHandler, sendIfOpen]

/-- A concrete captured frame. -/
def frame0 : ScreencastFrame :=
  { data := "AAAA", metadata := some { deviceWidth := 1280, deviceHeight := 939 },
    sessionId := 1 }

/-- Witness for C8 at a concrete frame on an open viewer socket. -/
theorem screencastFrame_forward_and_ack_witness :
    screencastFrameHandler 1 frame0 =
      [HandlerAction.sendViewer (ViewerMsg.frame "AAAA" (some 1280) (some 939)),
       HandlerAction.ackSource 1] ∧
    HandlerAction.awaitViewer ∉ screencastFrameHandler 1 frame0 := by
  have h := screencastFrame_forward_and_ack 1 frame0 rfl
  exact ⟨h.1, h.2⟩

/-- C9: the handler installed for SIGINT and SIGTERM attempts to destroy
every registered session (one attempt per entry, in order, regardless of
individual close failures, which are swallowed), leaves the registry
empty, and only then exits. -/
theorem handleSignal_destroys_all (closeOk : String → Bool) (st : ModuleState)
    (hwf : ∀ p ∈ st.registry, p.1 = p.2.id) :
    signalHandlerInstalled "SIGINT" = true ∧
    signalHandlerInstalled "SIGTERM" = true ∧
    (handleSignal closeOk st).1.registry = [] ∧
    attemptedIds (handleSignal closeOk st).2.dropLast =
      st.registry.map (fun p => p.2.id) ∧
    (handleSignal closeOk st).2.getLast? = some (SignalEvent.exitProcess 0) := by
  refine ⟨rfl, rfl, ?_, ?_, ?_⟩
  · rw [List.eq_nil_iff_forall_not_mem]
    intro p hp
    have hp2 : p ∈ (sweepGo closeOk (st.registry.map (fun q => q.2.id)) st []).1.registry := hp
    rcases sweepGo_registry_mem closeOk _ st [] p hp2 with ⟨hmem, hnid⟩
    refine hnid ?_
    rw [hwf p hmem]
    exact List.mem_map_of_mem _ hmem
  · have h := sweepGo_attempts closeOk (st.registry.map (fun p => p.2.id)) st []
    show attemptedIds ((sweepGo closeOk (st.registry.map (fun p => p.2.id)) st []).2 ++
        [SignalEvent.exitProcess 0]).dropLast = _
    rw [List.dropLast_concat, h]
    simp [attemptedIds]
  · show ((sweepGo closeOk (st.registry.map (fun p => p.2.id)) st []).2 ++
        [SignalEvent.exitProcess 0]).getLast? = _
    rw [List.getLast?_concat]

/-- A second registered session, without a timer. -/
def sessionB : Session :=
  { id := "b", port := 9500, wsBrowserUrl := "ws://127.0.0.1:9500/devtools/browser/b",
    pid := none, expiresAt := none, timerDuration := none }

/-- A module state holding sessionA and sessionB. -/
def stTwo : ModuleState :=
  { plugins := [], registry := [("a", sessionA), ("b", sessionB)] }

/-- A close behavior in which closing browser a fails. -/
def closeFailsA : String → Bool := fun id => decide (¬ id = "a")

/-- Witness for C9: with the close of session a failing, both sessions are
still attempted, the registry ends empty and the exit event comes last. -/
theorem handleSignal_destroys_all_witness :
    (handleSignal closeFailsA stTwo).1.registry = [] ∧
    attemptedIds (handleSignal closeFailsA stTwo).2.dropLast = ["a", "b"] ∧
    (handleSignal closeFailsA stTwo).2.getLast? = some (SignalEvent.exitProcess 0) := by
  have h := handleSignal_destroys_all closeFailsA stTwo (by decide)
  exact ⟨h.2.2.1, h.2.2.2.1, h.2.2.2.2⟩

/-- C10: a createSession call with stealth false clears the module-wide
plugin list, so that call and every later createSession call — whatever its
own stealth option — launches with no stealth plugin, and the list stays
empty (nothing ever re-registers the plugin). -/
theorem stealth_clear_is_permanent (opts : CreateOptions) (env : LaunchEnv)
    (st : ModuleState) (calls : List (CreateOptions × LaunchEnv))
    (hs : opts.stealth = false) :
    (createSession opts env st).1.plugins = [] ∧
    launchesStealthFree (createSession opts env st).2.1 = true ∧
    (runCalls calls (createSession opts env st).1).1.plugins = [] ∧
    launchesStealthFree (runCalls calls (createSession opts env st).1).2 = true := by
  have hpa : pluginsAfter opts st = [] := by
    simp [pluginsAfter, hs]
  have h1 := createSession_stealth_free opts env st hpa
  have h2 := runCalls_stealth_free calls _ h1.1
  exact ⟨h1.1, h1.2, h2.1, h2.2⟩

/-- Options identical to the defaults except stealth explicitly false. -/
def optsStealthOff : CreateOptions := { defaultCreateOptions with stealth := false }

/-- Witness for C10: a stealth-off creation followed by a default
(stealth-on) creation still launches both browsers with no plugins. -/
theorem stealth_clear_is_permanent_witness :
    (createSession optsStealthOff envUpAtOnce initialModuleState).1.plugins = [] ∧
    launchesStealthFree
      (createSession optsStealthOff envUpAtOnce initialModuleState).2.1 = true ∧
    (runCalls [(defaultCreateOptions, envUpAtOnce)]
        (createSession optsStealthOff envUpAtOnce initialModuleState).1).1.plugins = [] ∧
    launchesStealthFree
      (runCalls [(defaultCreateOptions, envUpAtOnce)]
        (createSession optsStealthOff envUpAtOnce initialModuleState).1).2 = true :=
  stealth_clear_is_permanent optsStealthOff envUpAtOnce initialModuleState
    [(defaultCreateOptions, envUpAtOnce)] rfl

end ServerJs
